import Mathlib

/-!
Verification development for `froniator.py`, a cron-driven solar-inverter
telemetry pipeline.  The Python source is shallowly embedded below:

* machine/JSON numbers that the source treats as Python floats are modelled
  as rationals (`ℚ`), integers as `ℤ`;
* Python exceptions become an explicit `PyError` carried by `Except` or by
  an `Option PyError` component of a result;
* file-system effects of one invocation are recorded in a `RunEffects`
  structure rather than performed;
* timestamps built from seconds-since-midnight offsets are represented by
  those offsets themselves (the ISO rendering of a fixed date is injective
  in the offset and is presentation-only plumbing).

Section order: data model and the embedded operations first, then helper
lemmas, then the theorems about the claims.
-/

/- Batteries marks these rational-arithmetic definitions irreducible, which
blocks `decide`-style evaluation of concrete rational expressions; restore
the default reducibility for this file so that witnesses can be checked by
evaluation. -/
attribute [local semireducible] Rat.mul Rat.inv Rat.add Rat.sub

/-- Python runtime errors relevant to this program. -/
inductive PyError where
  /-- `UnboundLocalError`: a local variable is read before any assignment. -/
  | unboundLocal : PyError
  /-- `ValueError`, e.g. `max()` applied to an empty sequence. -/
  | valueError : PyError
  /-- `TypeError`, e.g. `max()` applied to the 0-d array that
  `np.genfromtxt` returns for a one-row file. -/
  | typeError : PyError
  deriving DecidableEq, Repr

/-- Outcome of one `requests.get` call, as seen by `call_inverter`:
either a parsed JSON payload of type `α`, or one of the two transport
exceptions the source catches. -/
inductive FetchResult (α : Type) where
  | success (payload : α) : FetchResult α
  | connectionError : FetchResult α
  | readTimeout : FetchResult α
  deriving DecidableEq, Repr

/-- Whether a fetch produced a payload. -/
def FetchResult.isSuccess {α : Type} : FetchResult α → Bool
  | .success _ => true
  | _ => false

/-- Embedding of `call_inverter` (froniator.py lines 115-124).  The local
variable `data` is assigned only inside the `try` block; on the two `except`
paths it stays unbound, which is modelled by the `none` case of `data?`.
The trailing `return data, errorStatus` therefore raises
`UnboundLocalError` whenever an exception was caught, even though
`errorStatus` has been set to the classified message. -/
def call_inverter {α : Type} (inverterUrl : String) (response : FetchResult α) :
    Except PyError (α × String) :=
  let dataAndStatus : Option α × String :=
    match response with
    | .success d => (some d, "OK")
    | .connectionError => (none, "Cannot connect to inverter")
    | .readTimeout => (none, "Timeout reading from API: " ++ inverterUrl)
  match dataAndStatus.1 with
  | some data => Except.ok (data, dataAndStatus.2)
  | none => Except.error PyError.unboundLocal

/-- Python `int()` applied to a (real-valued) number: truncation toward
zero.  On non-negative arguments it agrees with `⌊·⌋`; on negative
non-integers it is `⌈·⌉`. -/
def pyInt (q : ℚ) : ℤ := if q < 0 then -((-q).floor) else q.floor

/-- Order used by Python `sorted` on the `(key, value)` pairs of a
channel's `.items()`: lexicographic on the pair (key first). -/
def sampleLe (a b : ℤ × ℚ) : Prop := a.1 < b.1 ∨ (a.1 = b.1 ∧ a.2 ≤ b.2)

instance : DecidableRel sampleLe := fun a b =>
  inferInstanceAs (Decidable (a.1 < b.1 ∨ (a.1 = b.1 ∧ a.2 ≤ b.2)))

/-- Embedding of `sorted({int(k): float(v) for k, v in ch.items()}.items())`:
the channel as a list of (seconds-since-midnight, sample) pairs in
ascending order. -/
def sortByKey (l : List (ℤ × ℚ)) : List (ℤ × ℚ) := l.insertionSort sampleLe

/-- The four channels of the archive payload
(`Body.Data.inverter/1.Data.<channel>.Values`), each a list of
(seconds-since-midnight key, sample value) pairs after the source's
int/float conversions. -/
structure ArchiveData where
  string1cur : List (ℤ × ℚ)
  string1volt : List (ℤ × ℚ)
  string2cur : List (ℤ × ℚ)
  string2volt : List (ℤ × ℚ)
  deriving DecidableEq, Repr

/-- The instantaneous-power payload: `Body.Data.PAC.Values.1`. -/
structure PwrPayload where
  pac : ℤ
  deriving DecidableEq, Repr

/-- Embedding of `calculate_power` (froniator.py lines 269-327).  Returns
`(watts, timestampList, str1watts, str2watts)`.  Each string's current and
voltage channels are sorted by key and paired positionally (`zip`); a watt
sample is `int(current * voltage)`; the timestamp of a string-1 pair is the
current sample's seconds-since-midnight key (the source renders it as an
ISO timestamp of today, which is injective in the key).  All three lists
are then uniformly trimmed by `[54:]`. -/
def calculate_power (pwrData : PwrPayload) (stringData : ArchiveData) :
    ℤ × List ℤ × List ℤ × List ℤ :=
  let watts := pwrData.pac
  let string1cur := sortByKey stringData.string1cur
  let string2cur := sortByKey stringData.string2cur
  let string1volt := sortByKey stringData.string1volt
  let string2volt := sortByKey stringData.string2volt
  let timestampList := (string1cur.zip string1volt).map (fun cv => cv.1.1)
  let str1watts := (string1cur.zip string1volt).map (fun cv => pyInt (cv.1.2 * cv.2.2))
  let str2watts := (string2cur.zip string2volt).map (fun cv => pyInt (cv.1.2 * cv.2.2))
  (watts, timestampList.drop 54, str1watts.drop 54, str2watts.drop 54)

/-- Python `round(x)` (no digits argument beyond the scaling below):
round-half-to-even on the exact value.  The program's floats are modelled
exactly by rationals. -/
def roundHalfEven (q : ℚ) : ℤ :=
  let f := q.floor
  if q - f < 1 / 2 then f
  else if 1 / 2 < q - f then f + 1
  else if f % 2 = 0 then f else f + 1

/-- Python `round(x, 2)`: round-half-to-even at two decimal places. -/
def pyRound2 (q : ℚ) : ℚ := (roundHalfEven (q * 100) : ℚ) / 100

/-- Embedding of the numeric core of `draw_graph` (froniator.py lines
128-265) on the watt column `yAgg` of today's aggregate CSV as read back
by `np.genfromtxt` (line 132).  The read-back errors before any total is
computed whenever the file has fewer than two rows: an empty or missing
file yields no usable array (modelled as the empty series, whose
`maxPwr = max(yAgg)` at line 141 raises `ValueError`; the source's exact
exception for an empty read may differ, but the run aborts either way),
and a one-row file is squeezed by `genfromtxt` to a 0-d array, so
`max(yAgg)` raises `TypeError` (iteration over a 0-d array).  With at
least two rows, `maxPwr` is the maximum and
`kWh = round(sum(yAgg) / 60 / 1000, 2)` (line 159); the pair is returned.
The chart-drawing primitives, the title text and the string-series
overlay are presentation plumbing and are out of scope (the string series
never feeds a returned value); the two `savefig` writes are recorded as
effects by the callers below, and happen only after these computations,
so an error here produces no image. -/
def draw_graph (yAgg : List ℤ) : Except PyError (ℚ × ℤ) :=
  match yAgg with
  | [] => Except.error PyError.valueError
  | [_] => Except.error PyError.typeError
  | a :: rest =>
      let maxPwr : ℤ := rest.foldl max a
      let kWh : ℚ := pyRound2 (((a :: rest).sum : ℚ) / 60 / 1000)
      Except.ok (kWh, maxPwr)

/-- The rows written to the per-string CSV by `main` (froniator.py lines
500-506): `for a, b in zip(zip(timestampList, str1watts), str2watts)`,
one row `(timestamp, string1_watts, string2_watts)` per zipped element.
`zip` stops at the shortest input, silently dropping the excess of the
longer ones. -/
def stringCsvRows (timestampList str1watts str2watts : List ℤ) : List (ℤ × ℤ × ℤ) :=
  ((timestampList.zip str1watts).zip str2watts).map (fun ab => (ab.1.1, ab.1.2, ab.2))

/-- Embedding of `write_history_html` (froniator.py lines 331-341) as a
function from the pre-call state of the index document to its post-call
content.  `isHistoryHtml` is the existence check `main` passes in;
`oldContent` is the file's content when it exists.  When absent, the file
is opened in append mode (creating it) and the entry plus a newline is its
sole content; when present, it is opened `r+`, fully read, the cursor
rewound, and the new entry plus a newline written followed by the old
content (the rewrite never shortens the file, so no truncation issue
arises). -/
def write_history_html (isHistoryHtml : Bool) (oldContent : String) (histHtmlStr : String) :
    String :=
  if !isHistoryHtml then histHtmlStr ++ "\n"
  else histHtmlStr ++ "\n" ++ oldContent

/-- The index document's content after a sequence of finalizations, each
appending one entry via `write_history_html`: the first call finds no file,
every later call finds the file written by the previous one.  `none`
means the file never came to exist. -/
def iterateHistory (entries : List String) : Option String :=
  entries.foldl
    (fun acc e =>
      match acc with
      | none => some (write_history_html false "" e)
      | some c => some (write_history_html true c e))
    none

/-- Embedding of `log_errors` (froniator.py lines 357-369).  Returns the
list of printed lines (each one `print` call's argument) and a flag that is
true when `sys.exit(0)` was reached.  When all three files exist the
function exits with status 0 before printing anything, including before
the `ERRORSTATUS` check; otherwise the `elif` chain prints at most one
file-state diagnostic and then a non-"OK" `ERRORSTATUS` is printed. -/
def log_errors (isDailyPng isDailyCsv isStringCsv FIRSTRUN : Bool)
    (ERRORSTATUS timeIso : String) : List String × Bool :=
  if isDailyPng && isDailyCsv && isStringCsv then ([], true)
  else
    let fileLine : List String :=
      if isDailyPng then ["\n" ++ timeIso ++ " Daily PNG already exists"]
      else if !isDailyCsv && !FIRSTRUN then
        ["\n" ++ timeIso ++ " Daily inverter CSV file is missing"]
      else if !isStringCsv && !FIRSTRUN then
        ["\n" ++ timeIso ++ " Daily string CSV file is missing"]
      else []
    let errLine : List String :=
      if ERRORSTATUS ≠ "OK" then ["\n" ++ timeIso ++ " " ++ ERRORSTATUS] else []
    (fileLine ++ errLine, false)

/-- Specification variant of the per-string watt computation, following the
spec's words instead of the source: "computed watts = floor(current ×
voltage)".  Identical to `calculate_power`'s per-string part except that
the product is floored rather than truncated toward zero.  Used only to
compare the spec's rounding with the source's. -/
def calculate_power_floor_spec (stringData : ArchiveData) : List ℤ × List ℤ :=
  let s1 := ((sortByKey stringData.string1cur).zip (sortByKey stringData.string1volt)).map
    (fun cv => (cv.1.2 * cv.2.2).floor)
  let s2 := ((sortByKey stringData.string2cur).zip (sortByKey stringData.string2volt)).map
    (fun cv => (cv.1.2 * cv.2.2).floor)
  (s1.drop 54, s2.drop 54)

/-- The inputs that determine one invocation of the script: the time
context, the command-line overrides, the observed file-system state, and
the outcome of the two HTTP calls.  `aggFileRows` is the watt column of
today's aggregate CSV as it stands before this run (meaningful when
`isDailyCsv` is true); `historyContent` is the index document's current
content (meaningful when `isHistoryHtml` is true). -/
structure RunInput where
  timeNow : ℤ
  sunrise : ℤ
  sunset : ℤ
  forceDay : Bool
  forceEod : Bool
  testMode : Bool
  isDailyCsv : Bool
  isDailyPng : Bool
  isStringCsv : Bool
  isHistoryHtml : Bool
  historyContent : String
  aggFileRows : List ℤ
  pwrFetch : FetchResult PwrPayload
  stringFetch : FetchResult ArchiveData
  today : String
  timeIso : String
  histHtmlStr : String
  deriving DecidableEq, Repr

/-- The observable effects of one invocation.  Counters count `savefig`
or write calls; list fields carry the written data in order. -/
structure RunEffects where
  /-- Number of `call_inverter` calls issued. -/
  acquisitionAttempts : ℕ := 0
  /-- Rows appended to today's aggregate CSV (their watt values). -/
  aggAppends : List ℤ := []
  /-- Content written to the per-string CSV, when it was (over)written. -/
  stringCsvWrite : Option (List (ℤ × ℤ × ℤ)) := none
  /-- Completed `draw_graph` calls made from the daytime-sample path. -/
  daytimeRenders : ℕ := 0
  /-- `savefig` calls targeting the live image. -/
  liveImageWrites : ℕ := 0
  /-- `savefig` calls targeting today's archival (dated) image. -/
  dailyPngWrites : ℕ := 0
  /-- Rows appended to the summary CSV, as (kWh, peak watts) pairs. -/
  summaryAppends : List (ℚ × ℤ) := []
  /-- New content of the index document, when it was rewritten. -/
  historyWrite : Option String := none
  /-- Arguments of the `print` calls made by `log_errors`. -/
  printed : List String := []
  /-- Exit status when the interpreter terminated normally. -/
  exitCode : Option ℕ := none
  /-- Whether `sys.exit(0)` was reached inside `log_errors`. -/
  earlyExit : Bool := false
  deriving DecidableEq, Repr

/-- Componentwise accumulation of effects of successive phases (first
argument first in time). -/
def RunEffects.merge (a b : RunEffects) : RunEffects where
  acquisitionAttempts := a.acquisitionAttempts + b.acquisitionAttempts
  aggAppends := a.aggAppends ++ b.aggAppends
  stringCsvWrite := a.stringCsvWrite.orElse (fun _ => b.stringCsvWrite)
  daytimeRenders := a.daytimeRenders + b.daytimeRenders
  liveImageWrites := a.liveImageWrites + b.liveImageWrites
  dailyPngWrites := a.dailyPngWrites + b.dailyPngWrites
  summaryAppends := a.summaryAppends ++ b.summaryAppends
  historyWrite := a.historyWrite.orElse (fun _ => b.historyWrite)
  printed := a.printed ++ b.printed
  exitCode := a.exitCode.orElse (fun _ => b.exitCode)
  earlyExit := a.earlyExit || b.earlyExit

/-- Guard of the daytime-sample block (froniator.py lines 481-482):
`(timeNow > sunrise and timeNow < sunset and not FORCEEOD) or FORCEDAY`. -/
def daytimeGuard (i : RunInput) : Bool :=
  (decide (i.sunrise < i.timeNow) && decide (i.timeNow < i.sunset) && !i.forceEod)
    || i.forceDay

/-- Guard of the end-of-day finalize block (froniator.py lines 518-519):
`(timeNow > sunset and not isDailyPng and isDailyCsv and isStringCsv and
not FORCEDAY) or FORCEEOD`. -/
def finalizeGuard (i : RunInput) : Bool :=
  (decide (i.sunset < i.timeNow) && !i.isDailyPng && i.isDailyCsv && i.isStringCsv
      && !i.forceDay)
    || i.forceEod

/-- URL of the instantaneous-power endpoint. -/
def powerApiUrl : String :=
  "http://192.168.1.123/solar_api/v1/GetInverterRealtimeData.cgi?Scope=System"

/-- URL of the archive endpoint for a given date string. -/
def stringApiUrl (today : String) : String :=
  "http://192.168.1.123/solar_api/v1/GetArchiveData.cgi?Scope=System&StartDate="
    ++ today ++ "&EndDate=" ++ today
    ++ "&Channel=Voltage_DC_String_1&Channel=Current_DC_String_1"
    ++ "&Channel=Voltage_DC_String_2&Channel=Current_DC_String_2"

/-- Result of the daytime-sample block: its effects, the aggregate CSV's
watt column as left on disk, the value of `ERRORSTATUS` afterwards, and
an uncaught Python error if one terminated the script. -/
structure DayOut where
  eff : RunEffects
  aggRows : List ℤ
  errorStatus : String
  err : Option PyError
  deriving DecidableEq, Repr

/-- Embedding of the daytime-sample block of `main` (froniator.py lines
479-513).  When the guard holds, the two API calls are made in order (the
second call's status overwrites the first's, as in the source); a caught
transport error makes `call_inverter` raise `UnboundLocalError`, which
terminates the script.  On success, `calculate_power` runs, one row is
appended to the aggregate CSV, the string CSV is overwritten, and the
graph is drawn only when the aggregate CSV already existed before this
run (`FIRSTRUN` is set from the existence check at lines 476-477); the
daytime render writes the live image always and the dated image only when
`ENDOFDAY` (set solely by the `-e` flag, lines 412-413) is true.  The
aggregate CSV's on-disk watt column before the append is `i.aggFileRows`
when the file exists and empty otherwise (`write_csv` opens in append
mode, creating an absent file), so the first sample of a new day leaves a
one-row file. -/
def dayPhase (i : RunInput) : DayOut :=
  let FIRSTRUN := !i.isDailyCsv
  let ENDOFDAY := i.forceEod
  let priorRows := if i.isDailyCsv then i.aggFileRows else []
  if daytimeGuard i then
    match call_inverter powerApiUrl i.pwrFetch with
    | Except.error pe => ⟨{ acquisitionAttempts := 1 }, priorRows, "OK", some pe⟩
    | Except.ok pd =>
      match call_inverter (stringApiUrl i.today) i.stringFetch with
      | Except.error pe => ⟨{ acquisitionAttempts := 2 }, priorRows, "OK", some pe⟩
      | Except.ok sd =>
        let ERRORSTATUS := sd.2
        if ERRORSTATUS = "OK" then
          let r := calculate_power pd.1 sd.1
          let watts := r.1
          let newRows := priorRows ++ [watts]
          let csvRows := stringCsvRows r.2.1 r.2.2.1 r.2.2.2
          if i.isDailyCsv && !FIRSTRUN then
            match draw_graph newRows with
            | Except.error pe =>
              ⟨{ acquisitionAttempts := 2, aggAppends := [watts],
                 stringCsvWrite := some csvRows }, newRows, ERRORSTATUS, some pe⟩
            | Except.ok _ =>
              ⟨{ acquisitionAttempts := 2, aggAppends := [watts],
                 stringCsvWrite := some csvRows, daytimeRenders := 1,
                 liveImageWrites := 1,
                 dailyPngWrites := if ENDOFDAY then 1 else 0 },
               newRows, ERRORSTATUS, none⟩
          else
            ⟨{ acquisitionAttempts := 2, aggAppends := [watts],
               stringCsvWrite := some csvRows }, newRows, ERRORSTATUS, none⟩
        else
          ⟨{ acquisitionAttempts := 2 }, priorRows, ERRORSTATUS, none⟩
  else ⟨{}, priorRows, "OK", none⟩

/-- Embedding of the end-of-day finalize block of `main` (froniator.py
lines 515-531).  When the guard holds, `plotSysVal['eod']` is set, so the
render writes both the live image and the dated archival image; then one
summary row is appended and the index document is rewritten through
`write_history_html`.  `rows` is the aggregate CSV's watt column as it
stands when the block runs. -/
def finalizePhase (i : RunInput) (rows : List ℤ) : RunEffects × Option PyError :=
  if finalizeGuard i then
    match draw_graph rows with
    | Except.error pe => ({}, some pe)
    | Except.ok km =>
      ({ liveImageWrites := 1, dailyPngWrites := 1,
         summaryAppends := [(km.1, km.2)],
         historyWrite := some (write_history_html i.isHistoryHtml i.historyContent
           i.histHtmlStr) }, none)
  else ({}, none)

/-- Embedding of the top-level flow of `main` (froniator.py lines
471-535): the daytime-sample block, then the finalize block, then
`log_errors`.  An uncaught Python error in an earlier block terminates
the script, skipping the later blocks; the error is returned alongside
the effects accumulated so far.  When `log_errors` is reached the script
terminates with status 0 whether or not `sys.exit(0)` fired. -/
def mainRun (i : RunInput) : RunEffects × Option PyError :=
  let FIRSTRUN := !i.isDailyCsv
  let d := dayPhase i
  match d.err with
  | some pe => (d.eff, some pe)
  | none =>
    let f := finalizePhase i d.aggRows
    match f.2 with
    | some pe => (d.eff.merge f.1, some pe)
    | none =>
      let lg := log_errors i.isDailyPng i.isDailyCsv i.isStringCsv FIRSTRUN
        d.errorStatus i.timeIso
      (d.eff.merge (f.1.merge
        { printed := lg.1, exitCode := some 0, earlyExit := lg.2 }), none)

/-! Helper definitions for the concrete inputs used by counterexamples and
witnesses. -/

/-- A channel of `n` samples: keys `0, …, n-1`, every value `1`. -/
def constSamples (n : ℕ) : List (ℤ × ℚ) := (List.range n).map (fun k => ((k : ℤ), 1))

/-- A 55-sample current channel whose last sample (key 54, the first one
surviving the trim) is `-1/2`. -/
def cexCur : List (ℤ × ℚ) :=
  (List.range 55).map (fun k => ((k : ℤ), if k = 54 then -(1/2 : ℚ) else 1))

/-- Archive payload whose string-1 product at the first post-trim slot is
negative (`-1/2 × 1`). -/
def cexArch : ArchiveData := ⟨cexCur, constSamples 55, [], []⟩

/-- Archive payload whose string-1 channels hold 55 paired samples but
whose string-2 channels hold 56. -/
def arch5 : ArchiveData := ⟨constSamples 55, constSamples 55, constSamples 56, constSamples 56⟩

/-- A nominal daytime run: the clock strictly between sunrise and sunset,
no overrides, today's aggregate and string CSVs present, archival image
absent, and both fetches succeeding. -/
def baseInput : RunInput := {
  timeNow := 20, sunrise := 10, sunset := 50, forceDay := false, forceEod := false,
  testMode := false, isDailyCsv := true, isDailyPng := false, isStringCsv := true,
  isHistoryHtml := false, historyContent := "", aggFileRows := [300],
  pwrFetch := FetchResult.success ⟨500⟩, stringFetch := FetchResult.success ⟨[], [], [], []⟩,
  today := "2021-09-11", timeIso := "T", histHtmlStr := "H" }

/-! Helper lemmas. -/

/-- The executable `Rat.floor` is the mathematical floor. -/
theorem ratFloor_eq_floor (q : ℚ) : q.floor = ⌊q⌋ :=
  (Rat.floor_def' q).trans Rat.floor_def.symm

/-- On non-negative arguments Python `int()` is the floor. -/
theorem pyInt_eq_floor (q : ℚ) (h : 0 ≤ q) : pyInt q = ⌊q⌋ := by
  unfold pyInt
  rw [if_neg (not_lt.mpr h), ratFloor_eq_floor]

/-- On negative arguments Python `int()` is the ceiling. -/
theorem pyInt_eq_ceil (q : ℚ) (h : q < 0) : pyInt q = ⌈q⌉ := by
  unfold pyInt
  rw [if_pos h, ratFloor_eq_floor, ← Int.ceil_neg, neg_neg]

/-- Rendering a series of at least two samples returns the rounded total
and the maximum. -/
theorem draw_graph_two (yAgg : List ℤ) (h : 2 ≤ yAgg.length) :
    ∃ m, draw_graph yAgg = Except.ok (pyRound2 ((yAgg.sum : ℚ) / 60 / 1000), m) := by
  cases yAgg with
  | nil => simp at h
  | cons a t =>
    cases t with
    | nil => simp at h
    | cons b t2 => exact ⟨_, rfl⟩

theorem stringCsvRows_nil_left (w1 w2 : List ℤ) : stringCsvRows [] w1 w2 = [] := rfl

theorem stringCsvRows_nil_mid (ts w2 : List ℤ) (t : ℤ) :
    stringCsvRows (t :: ts) [] w2 = [] := rfl

theorem stringCsvRows_nil_right (ts w1 : List ℤ) (t a : ℤ) :
    stringCsvRows (t :: ts) (a :: w1) [] = [] := rfl

theorem stringCsvRows_cons (t a b : ℤ) (ts w1 w2 : List ℤ) :
    stringCsvRows (t :: ts) (a :: w1) (b :: w2) = (t, a, b) :: stringCsvRows ts w1 w2 := rfl

/-- The per-string CSV rows are exactly the common-length prefix of the
three series, paired up componentwise. -/
theorem stringCsvRows_spec (ts w1 w2 : List ℤ) :
    (stringCsvRows ts w1 w2).length = min (min ts.length w1.length) w2.length
    ∧ (stringCsvRows ts w1 w2).map (fun r => r.1)
        = ts.take (min (min ts.length w1.length) w2.length)
    ∧ (stringCsvRows ts w1 w2).map (fun r => r.2.1)
        = w1.take (min (min ts.length w1.length) w2.length)
    ∧ (stringCsvRows ts w1 w2).map (fun r => r.2.2)
        = w2.take (min (min ts.length w1.length) w2.length) := by
  induction ts generalizing w1 w2 with
  | nil => simp [stringCsvRows_nil_left]
  | cons t ts ih =>
    cases w1 with
    | nil => simp [stringCsvRows_nil_mid]
    | cons a w1 =>
      cases w2 with
      | nil => simp [stringCsvRows_nil_right]
      | cons b w2 =>
        obtain ⟨hl, h1, h2, h3⟩ := ih w1 w2
        simp [stringCsvRows_cons, hl, h1, h2, h3, Nat.succ_min_succ]

/-- The listing the spec expects of the index document: one line per
entry, most recently inserted first, oldest last.  `entries` is in
insertion order. -/
def reverseChronListing (entries : List String) : String :=
  match entries with
  | [] => ""
  | e :: rest => reverseChronListing rest ++ (e ++ "\n")

/-- Folding further finalizations onto an existing index document prepends
their listing to its content. -/
theorem iterateHistory_from (es : List String) (c : String) :
    es.foldl
      (fun acc e =>
        match acc with
        | none => some (write_history_html false "" e)
        | some cc => some (write_history_html true cc e))
      (some c)
    = some (reverseChronListing es ++ c) := by
  induction es generalizing c with
  | nil => simp [reverseChronListing, String.empty_append]
  | cons e rest ih =>
    rw [List.foldl_cons]
    exact (ih ((e ++ "\n") ++ c)).trans (by
      simp only [reverseChronListing, String.append_assoc])

/-- The index document after a sequence of finalizations holds every entry
exactly once, newest first. -/
theorem iterateHistory_eq (entries : List String) :
    iterateHistory entries =
      if entries.isEmpty then none else some (reverseChronListing entries) := by
  cases entries with
  | nil => rfl
  | cons e rest =>
    unfold iterateHistory
    rw [List.foldl_cons]
    have h1 := iterateHistory_from rest (e ++ "\n")
    refine (h1.trans ?_).trans (if_neg (by simp)).symm
    simp only [reverseChronListing]

/-- Lengths of the three trimmed sequences produced by the transform:
sorting preserves a channel's length, `zip` takes the minimum of the two
paired channels, and the trim removes (up to) 54 elements. -/
theorem calculate_power_lengths (p : PwrPayload) (d : ArchiveData) :
    (calculate_power p d).2.1.length = min d.string1cur.length d.string1volt.length - 54
    ∧ (calculate_power p d).2.2.1.length = min d.string1cur.length d.string1volt.length - 54
    ∧ (calculate_power p d).2.2.2.length = min d.string2cur.length d.string2volt.length - 54 := by
  unfold calculate_power sortByKey
  simp [List.length_zip, List.length_insertionSort]

/-- When the daytime guard is off, the daytime block contributes nothing:
no acquisition, no writes, `ERRORSTATUS` still "OK". -/
theorem dayPhase_guard_false (i : RunInput) (h : daytimeGuard i = false) :
    dayPhase i = ⟨{}, if i.isDailyCsv then i.aggFileRows else [], "OK", none⟩ := by
  unfold dayPhase
  simp [h]

/-- When the finalize guard is off, the finalize block contributes
nothing. -/
theorem finalizePhase_guard_false (i : RunInput) (rows : List ℤ)
    (h : finalizeGuard i = false) : finalizePhase i rows = ({}, none) := by
  unfold finalizePhase
  simp [h]

/-- Daytime run whose power request raises a connection error. -/
def cex1 : RunInput := { baseInput with pwrFetch := FetchResult.connectionError }

/-- C1: the claim states that a daytime run whose inverter HTTP request
fails with a connection error or read timeout gets a `None` payload plus a
classified error status back from the acquisition call, skips
transform/persist/render, and terminates normally after logging.  The code
instead crashes: `call_inverter`'s `except` branches never assign the
local `data`, so the `return` raises `UnboundLocalError`, aborting the run
before any logging, with no row appended and no exit status 0.  This
contradicts the function's own error-classification structure and the
`if ERRORSTATUS == "OK"` handling downstream, so the code, not the claim,
is wrong. -/
theorem C1_transport_error_crashes_run :
    @call_inverter PwrPayload powerApiUrl FetchResult.connectionError
      = Except.error PyError.unboundLocal
    ∧ @call_inverter ArchiveData (stringApiUrl "2021-09-11") FetchResult.readTimeout
      = Except.error PyError.unboundLocal
    ∧ daytimeGuard cex1 = true
    ∧ mainRun cex1 = ({ acquisitionAttempts := 1 }, some PyError.unboundLocal) :=
  ⟨rfl, rfl, by decide, by decide⟩

/-- C2: once today's archival image exists and end-of-day is not forced,
an invocation appends nothing to the summary CSV, never rewrites the
archival image, and leaves the index document untouched, so the
day-summary row cannot be duplicated by re-runs after a successful
finalize. -/
theorem C2_finalize_idempotent_after_image (i : RunInput)
    (hpng : i.isDailyPng = true) (heod : i.forceEod = false) :
    (mainRun i).1.summaryAppends = [] ∧ (mainRun i).1.dailyPngWrites = 0
    ∧ (mainRun i).1.historyWrite = none := by
  have hf : finalizeGuard i = false := by
    simp [finalizeGuard, hpng, heod]
  have hday : (dayPhase i).eff.summaryAppends = []
      ∧ (dayPhase i).eff.dailyPngWrites = 0
      ∧ (dayPhase i).eff.historyWrite = none := by
    cases hg : daytimeGuard i with
    | false => simp [dayPhase_guard_false i hg]
    | true =>
      cases hp : i.pwrFetch with
      | success p =>
        cases hs : i.stringFetch with
        | success d =>
          cases hcsv : i.isDailyCsv with
          | false => simp [dayPhase, call_inverter, hg, hp, hs, hcsv]
          | true =>
            cases hdg : draw_graph (i.aggFileRows ++ [(calculate_power p d).1]) <;>
              simp [dayPhase, call_inverter, hg, hp, hs, hcsv, hdg, heod]
        | connectionError => simp [dayPhase, call_inverter, hg, hp, hs]
        | readTimeout => simp [dayPhase, call_inverter, hg, hp, hs]
      | connectionError => simp [dayPhase, call_inverter, hg, hp]
      | readTimeout => simp [dayPhase, call_inverter, hg, hp]
  obtain ⟨h1, h2, h3⟩ := hday
  cases herr : (dayPhase i).err with
  | some pe => simp [mainRun, herr, h1, h2, h3]
  | none =>
    simp [mainRun, herr, finalizePhase_guard_false i _ hf, RunEffects.merge,
      h1, h2, h3]

/-- A run with the archival image already present and no forced
end-of-day. -/
def wit2 : RunInput := { baseInput with isDailyPng := true }

/-- Witness for C2 at a concrete daytime re-run after a finalize. -/
theorem C2_witness :
    (mainRun wit2).1.summaryAppends = [] ∧ (mainRun wit2).1.dailyPngWrites = 0
    ∧ (mainRun wit2).1.historyWrite = none :=
  C2_finalize_idempotent_after_image wit2 rfl rfl

/-- C3 (amended): for every aggregate watt series of at least two samples
the rendered total is `round(sum / 60 / 1000, 2)`, which equals the
spec's `round(sum / 60000, 2)`.  Neither the empty nor the single-sample
series yields a total (see the counterexample): the read-back of an empty
file gives `max()` nothing to iterate, and `np.genfromtxt` squeezes a
one-row file to a 0-d array on which `max()` raises `TypeError`, both
before the total is computed. -/
theorem C3_kwh_formula (yAgg : List ℤ) (h : 2 ≤ yAgg.length) :
    (draw_graph yAgg).map Prod.fst = Except.ok (pyRound2 ((yAgg.sum : ℚ) / 60 / 1000))
    ∧ pyRound2 ((yAgg.sum : ℚ) / 60 / 1000) = pyRound2 ((yAgg.sum : ℚ) / 60000) := by
  obtain ⟨m, hm⟩ := draw_graph_two yAgg h
  refine ⟨by rw [hm]; rfl, by rw [div_div]; norm_num⟩

/-- Counterexample to C3 as stated: the empty series raises `ValueError`
and the single-sample series `[600]` raises `TypeError` (0-d squeeze of
the one-row read) instead of producing totals 0.0 and `round(600/60000,
2)`. -/
theorem C3_empty_series_error :
    draw_graph [] = Except.error PyError.valueError
    ∧ (draw_graph []).toOption = none
    ∧ draw_graph [600] = Except.error PyError.typeError
    ∧ (draw_graph [600]).toOption = none :=
  ⟨rfl, rfl, rfl, rfl⟩

/-- Witness for C3 on the two-sample series `[600, 630]`. -/
theorem C3_witness :
    2 ≤ ([600, 630] : List ℤ).length ∧
      ((draw_graph [600, 630]).map Prod.fst
          = Except.ok (pyRound2 ((([600, 630] : List ℤ).sum : ℚ) / 60 / 1000))
        ∧ pyRound2 ((([600, 630] : List ℤ).sum : ℚ) / 60 / 1000)
          = pyRound2 ((([600, 630] : List ℤ).sum : ℚ) / 60000)) :=
  ⟨by decide, C3_kwh_formula [600, 630] (by decide)⟩

/-- C4 (amended): per-string watts are computed by pairing the sorted
current and voltage channels positionally and applying Python `int()` —
truncation toward zero, not floor.  When every paired product is
non-negative (the physically meaningful case) the result coincides with
the spec's floor formulation, and each string's trimmed length is
`min(len current, len voltage) - 54` (empty when that is ≤ 54). -/
theorem C4_watts_trunc_and_lengths (p : PwrPayload) (d : ArchiveData)
    (h1 : ∀ cv ∈ (sortByKey d.string1cur).zip (sortByKey d.string1volt),
      0 ≤ cv.1.2 * cv.2.2)
    (h2 : ∀ cv ∈ (sortByKey d.string2cur).zip (sortByKey d.string2volt),
      0 ≤ cv.1.2 * cv.2.2) :
    ((calculate_power p d).2.2.1, (calculate_power p d).2.2.2)
      = calculate_power_floor_spec d
    ∧ (calculate_power p d).2.2.1.length
      = min d.string1cur.length d.string1volt.length - 54
    ∧ (calculate_power p d).2.2.2.length
      = min d.string2cur.length d.string2volt.length - 54 := by
  refine ⟨?_, (calculate_power_lengths p d).2.1, (calculate_power_lengths p d).2.2⟩
  have e1 : ((sortByKey d.string1cur).zip (sortByKey d.string1volt)).map
        (fun cv => pyInt (cv.1.2 * cv.2.2))
      = ((sortByKey d.string1cur).zip (sortByKey d.string1volt)).map
        (fun cv => (cv.1.2 * cv.2.2).floor) :=
    List.map_congr_left (fun cv hcv =>
      (pyInt_eq_floor _ (h1 cv hcv)).trans (ratFloor_eq_floor _).symm)
  have e2 : ((sortByKey d.string2cur).zip (sortByKey d.string2volt)).map
        (fun cv => pyInt (cv.1.2 * cv.2.2))
      = ((sortByKey d.string2cur).zip (sortByKey d.string2volt)).map
        (fun cv => (cv.1.2 * cv.2.2).floor) :=
    List.map_congr_left (fun cv hcv =>
      (pyInt_eq_floor _ (h2 cv hcv)).trans (ratFloor_eq_floor _).symm)
  simp only [calculate_power, calculate_power_floor_spec]
  rw [e1, e2]

/-- Counterexample to C4 as stated: an archive payload whose first
post-trim string-1 sample has current `-1/2` and voltage `1`.  Python
`int(-0.5)` is `0`, but `floor(-0.5)` is `-1`, so the code's watt value is
not `floor(current × voltage)`. -/
theorem C4_trunc_vs_floor_cex :
    (calculate_power ⟨0⟩ cexArch).2.2.1 = [0]
    ∧ (calculate_power_floor_spec cexArch).1 = [-1]
    ∧ ¬ (calculate_power ⟨0⟩ cexArch).2.2.1 = (calculate_power_floor_spec cexArch).1 := by
  refine ⟨by decide, by decide, by decide⟩

/-- A 55-sample archive payload with all samples non-negative. -/
def wit4Arch : ArchiveData :=
  ⟨constSamples 55, constSamples 55, constSamples 55, constSamples 55⟩

/-- Witness for C4 at a concrete non-negative payload. -/
theorem C4_witness :
    ((calculate_power ⟨0⟩ wit4Arch).2.2.1, (calculate_power ⟨0⟩ wit4Arch).2.2.2)
      = calculate_power_floor_spec wit4Arch
    ∧ (calculate_power ⟨0⟩ wit4Arch).2.2.1.length
      = min wit4Arch.string1cur.length wit4Arch.string1volt.length - 54
    ∧ (calculate_power ⟨0⟩ wit4Arch).2.2.2.length
      = min wit4Arch.string2cur.length wit4Arch.string2volt.length - 54 :=
  C4_watts_trunc_and_lengths ⟨0⟩ wit4Arch (by decide) (by decide)

/-- C5 (amended): the transform's timestamp list and string-1 watt list
always have equal length (they are built in the same loop); each string's
trimmed length follows its own channels — `min(current, voltage) - 54` —
so the string-2 watt list matches the other two whenever the two strings'
paired channel lengths agree, and can differ from them when the channels
hold different numbers of samples (see the counterexample). -/
theorem C5_aligned_lengths (p : PwrPayload) (d : ArchiveData) :
    (calculate_power p d).2.1.length = (calculate_power p d).2.2.1.length
    ∧ (calculate_power p d).2.2.1.length
      = min d.string1cur.length d.string1volt.length - 54
    ∧ (calculate_power p d).2.2.2.length
      = min d.string2cur.length d.string2volt.length - 54
    ∧ (min d.string2cur.length d.string2volt.length
        = min d.string1cur.length d.string1volt.length →
       (calculate_power p d).2.2.2.length = (calculate_power p d).2.2.1.length) := by
  obtain ⟨hts, h1, h2⟩ := calculate_power_lengths p d
  exact ⟨hts.trans h1.symm, h1, h2, fun h => by rw [h2, h, h1]⟩

/-- Counterexample to C5 as stated: 55 paired samples on string 1 but 56
on string 2 leave trimmed lengths 1, 1 and 2 — not three equal-length
sequences. -/
theorem C5_unequal_strings_cex :
    (calculate_power ⟨0⟩ arch5).2.1.length = 1
    ∧ (calculate_power ⟨0⟩ arch5).2.2.1.length = 1
    ∧ (calculate_power ⟨0⟩ arch5).2.2.2.length = 2
    ∧ ¬ (calculate_power ⟨0⟩ arch5).2.2.2.length
        = (calculate_power ⟨0⟩ arch5).2.1.length := by
  refine ⟨by decide, by decide, by decide, by decide⟩

/-- Witness for C5 at a concrete payload with matching channel lengths. -/
theorem C5_witness :
    (calculate_power ⟨0⟩ wit4Arch).2.1.length = (calculate_power ⟨0⟩ wit4Arch).2.2.1.length
    ∧ (calculate_power ⟨0⟩ wit4Arch).2.2.2.length
      = (calculate_power ⟨0⟩ wit4Arch).2.2.1.length :=
  ⟨(C5_aligned_lengths ⟨0⟩ wit4Arch).1,
   (C5_aligned_lengths ⟨0⟩ wit4Arch).2.2.2 (by decide)⟩

/-- The finalize and logging phases never acquire, never append aggregate
rows, never write the string CSV and never render from the daytime path,
so those effects of a whole run are the daytime block's. -/
theorem mainRun_day_eff (i : RunInput) :
    (mainRun i).1.acquisitionAttempts = (dayPhase i).eff.acquisitionAttempts
    ∧ (mainRun i).1.aggAppends = (dayPhase i).eff.aggAppends
    ∧ (mainRun i).1.stringCsvWrite = (dayPhase i).eff.stringCsvWrite
    ∧ (mainRun i).1.daytimeRenders = (dayPhase i).eff.daytimeRenders := by
  cases herr : (dayPhase i).err with
  | some pe => simp [mainRun, herr]
  | none =>
    cases hsc : (dayPhase i).eff.stringCsvWrite <;>
      cases hf : finalizeGuard i <;>
        cases hdg : draw_graph ((dayPhase i).aggRows) <;>
          simp [mainRun, herr, finalizePhase, hf, hdg, RunEffects.merge, hsc,
            Option.orElse]

/-- When the finalize guard is off, a run's image writes are the daytime
block's. -/
theorem mainRun_render_eff (i : RunInput) (hf : finalizeGuard i = false) :
    (mainRun i).1.liveImageWrites = (dayPhase i).eff.liveImageWrites
    ∧ (mainRun i).1.dailyPngWrites = (dayPhase i).eff.dailyPngWrites := by
  cases herr : (dayPhase i).err with
  | some pe => simp [mainRun, herr]
  | none => simp [mainRun, herr, finalizePhase_guard_false i _ hf, RunEffects.merge]

/-- C6 (amended): the daytime-sample path runs exactly when (now is
strictly after sunrise and strictly before sunset and end-of-day is not
forced) or daytime is forced; otherwise no acquisition, no aggregate
append and no string-CSV write occurs, and the live image is untouched
provided the end-of-day finalize condition also fails — the finalize
path's render does overwrite the live image (see the counterexample), so
"no live render" cannot be promised from the daytime guard alone. -/
theorem C6_daytime_guard_effects (i : RunInput) :
    ((mainRun i).1.acquisitionAttempts ≠ 0 ↔ daytimeGuard i = true)
    ∧ (daytimeGuard i = false →
        (mainRun i).1.aggAppends = [] ∧ (mainRun i).1.stringCsvWrite = none
        ∧ (finalizeGuard i = false → (mainRun i).1.liveImageWrites = 0)) := by
  obtain ⟨hacq, hagg, hcsv, -⟩ := mainRun_day_eff i
  cases hg : daytimeGuard i with
  | false =>
    have hday := dayPhase_guard_false i hg
    refine ⟨?_, fun _ => ⟨?_, ?_, fun hf => ?_⟩⟩
    · rw [hacq, hday]
      simp
    · rw [hagg, hday]
    · rw [hcsv, hday]
    · rw [(mainRun_render_eff i hf).1, hday]
  | true =>
    have hpos : (dayPhase i).eff.acquisitionAttempts ≠ 0 := by
      cases hp : i.pwrFetch with
      | success p =>
        cases hs : i.stringFetch with
        | success d =>
          cases hcsv : i.isDailyCsv with
          | false => simp [dayPhase, call_inverter, hg, hp, hs, hcsv]
          | true =>
            cases hdg : draw_graph (i.aggFileRows ++ [(calculate_power p d).1]) <;>
              simp [dayPhase, call_inverter, hg, hp, hs, hcsv, hdg]
        | connectionError => simp [dayPhase, call_inverter, hg, hp, hs]
        | readTimeout => simp [dayPhase, call_inverter, hg, hp, hs]
      | connectionError => simp [dayPhase, call_inverter, hg, hp]
      | readTimeout => simp [dayPhase, call_inverter, hg, hp]
    refine ⟨?_, fun hfalse => by simp at hfalse⟩
    rw [hacq]
    simp [hpos]

/-- A post-sunset run with the finalize conditions met and a two-row
aggregate CSV: the daytime guard is off, yet the finalize render
overwrites the live image. -/
def cex6 : RunInput :=
  { baseInput with
    timeNow := 100
    aggFileRows := [300, 400] }

/-- Counterexample to C6 as stated: with `timeNow` after sunset the
daytime-sample guard is off, but the run still overwrites the live image,
because the finalize path's `draw_graph` saves it unconditionally. -/
theorem C6_finalize_live_render_cex :
    daytimeGuard cex6 = false ∧ (mainRun cex6).1.liveImageWrites = 1 := by
  refine ⟨by decide, by decide⟩

/-- A nighttime no-op run: daytime guard off and finalize guard off. -/
def wit6 : RunInput :=
  { baseInput with
    timeNow := 100
    isDailyCsv := false }

/-- Witness for C6 at a concrete no-op run. -/
theorem C6_witness :
    (mainRun wit6).1.aggAppends = [] ∧ (mainRun wit6).1.stringCsvWrite = none
    ∧ (finalizeGuard wit6 = false → (mainRun wit6).1.liveImageWrites = 0) :=
  (C6_daytime_guard_effects wit6).2 (by decide)

/-- C8: the index-document update writes the new entry as the sole line
when the file does not exist, otherwise rewrites the file with the new
entry first followed by the entire previous content; hence after N
sequential finalizations the document lists all N entries newest-first,
none lost or reordered. -/
theorem C8_history_reverse_chronological :
    (∀ e : String, write_history_html false "" e = e ++ "\n")
    ∧ (∀ old e : String, write_history_html true old e = e ++ "\n" ++ old)
    ∧ (∀ entries : List String,
        iterateHistory entries
          = if entries.isEmpty then none else some (reverseChronListing entries)) :=
  ⟨fun _ => rfl, fun _ _ => rfl, iterateHistory_eq⟩

/-- The daytime block never sets an exit status. -/
theorem dayPhase_exitCode (i : RunInput) : (dayPhase i).eff.exitCode = none := by
  cases hg : daytimeGuard i with
  | false => simp [dayPhase_guard_false i hg]
  | true =>
    cases hp : i.pwrFetch with
    | success p =>
      cases hs : i.stringFetch with
      | success d =>
        cases hcsv : i.isDailyCsv with
        | false => simp [dayPhase, call_inverter, hg, hp, hs, hcsv]
        | true =>
          cases hdg : draw_graph (i.aggFileRows ++ [(calculate_power p d).1]) <;>
            simp [dayPhase, call_inverter, hg, hp, hs, hcsv, hdg]
      | connectionError => simp [dayPhase, call_inverter, hg, hp, hs]
      | readTimeout => simp [dayPhase, call_inverter, hg, hp, hs]
    | connectionError => simp [dayPhase, call_inverter, hg, hp]
    | readTimeout => simp [dayPhase, call_inverter, hg, hp]

/-- The finalize block never sets an exit status. -/
theorem finalizePhase_exitCode (i : RunInput) (rows : List ℤ) :
    (finalizePhase i rows).1.exitCode = none := by
  unfold finalizePhase
  cases hf : finalizeGuard i with
  | false => simp
  | true => cases hdg : draw_graph rows <;> simp [hdg]

/-- C9 (amended): when logging is reached with the three files not all
present, a carried non-"OK" status is surfaced as a one-line diagnostic
prefixed with the run's timestamp and the logger does not exit early;
when the archival image, aggregate CSV and string CSV all exist the
logger exits with status 0 printing nothing (so a carried error would be
swallowed there); any run that does not crash terminates with status 0;
and a missing string CSV on a non-first run with the archival image
absent is reported as a one-line diagnostic without aborting.  (A missing
aggregate CSV coincides with a first run, so that branch of the source
can never fire.) -/
theorem C9_exit_logging :
    (∀ png csv scsv fr : Bool, ∀ err t : String,
      (png && csv && scsv) = false → err ≠ "OK" →
        ("\n" ++ t ++ " " ++ err) ∈ (log_errors png csv scsv fr err t).1
        ∧ (log_errors png csv scsv fr err t).2 = false)
    ∧ (∀ fr : Bool, ∀ err t : String, log_errors true true true fr err t = ([], true))
    ∧ (∀ i : RunInput, (mainRun i).2 = none → (mainRun i).1.exitCode = some 0)
    ∧ (∀ t : String, log_errors false true false false "OK" t
        = (["\n" ++ t ++ " Daily string CSV file is missing"], false)) := by
  refine ⟨?_, fun fr err t => rfl, ?_, fun t => rfl⟩
  · intro png csv scsv fr err t h herr
    simp [log_errors, h, herr]
  · intro i h
    cases herr : (dayPhase i).err with
    | some pe => simp [mainRun, herr] at h
    | none =>
      cases hf2 : (finalizePhase i (dayPhase i).aggRows).2 with
      | some pe => simp [mainRun, herr, hf2] at h
      | none =>
        simp [mainRun, herr, hf2, RunEffects.merge, dayPhase_exitCode,
          finalizePhase_exitCode, Option.orElse]

/-- All three files present while the daytime acquisition fails. -/
def cex9 : RunInput :=
  { baseInput with
    isDailyPng := true
    pwrFetch := FetchResult.connectionError }

/-- Counterexample to C9 as stated: a daytime run in which the archival
image, aggregate CSV and string CSV all already exist does not exit
cleanly with status 0 — the acquisition failure crashes the script before
`log_errors`, nothing is printed, and no exit status is reached. -/
theorem C9_crash_despite_files_cex :
    (cex9.isDailyPng && cex9.isDailyCsv && cex9.isStringCsv) = true
    ∧ (mainRun cex9).2 = some PyError.unboundLocal
    ∧ (mainRun cex9).1.exitCode = none
    ∧ (mainRun cex9).1.printed = [] := by
  refine ⟨by decide, by decide, by decide, by decide⟩

/-- Witness for C9: a surfaced transport error when not all files exist,
and a clean exit of a non-crashing run. -/
theorem C9_witness :
    (("\n" ++ "T" ++ " " ++ "Cannot connect to inverter")
        ∈ (log_errors false true true false "Cannot connect to inverter" "T").1
      ∧ (log_errors false true true false "Cannot connect to inverter" "T").2 = false)
    ∧ (mainRun baseInput).1.exitCode = some 0 :=
  ⟨C9_exit_logging.1 false true true false "Cannot connect to inverter" "T"
      (by decide) (by decide),
   C9_exit_logging.2.2.1 baseInput (by decide)⟩

/-- C10: the per-string CSV receives exactly the common-length prefix of
the transform's three sequences — `min` of the three lengths many rows,
the excess of any longer sequence silently dropped — and a successful
daytime run writes precisely those zipped rows. -/
theorem C10_string_csv_common_prefix :
    (∀ ts w1 w2 : List ℤ,
      (stringCsvRows ts w1 w2).length = min (min ts.length w1.length) w2.length
      ∧ (stringCsvRows ts w1 w2).map (fun r => r.1)
          = ts.take (min (min ts.length w1.length) w2.length)
      ∧ (stringCsvRows ts w1 w2).map (fun r => r.2.1)
          = w1.take (min (min ts.length w1.length) w2.length)
      ∧ (stringCsvRows ts w1 w2).map (fun r => r.2.2)
          = w2.take (min (min ts.length w1.length) w2.length))
    ∧ (∀ i : RunInput, ∀ p : PwrPayload, ∀ d : ArchiveData,
        daytimeGuard i = true → i.pwrFetch = FetchResult.success p →
        i.stringFetch = FetchResult.success d →
        (mainRun i).1.stringCsvWrite
          = some (stringCsvRows (calculate_power p d).2.1 (calculate_power p d).2.2.1
              (calculate_power p d).2.2.2)) := by
  refine ⟨stringCsvRows_spec, fun i p d hg hp hs => ?_⟩
  rw [(mainRun_day_eff i).2.2.1]
  cases hcsv : i.isDailyCsv with
  | false => simp [dayPhase, call_inverter, hg, hp, hs, hcsv]
  | true =>
    cases hdg : draw_graph (i.aggFileRows ++ [(calculate_power p d).1]) <;>
      simp [dayPhase, call_inverter, hg, hp, hs, hcsv, hdg]

/-- Witness for C10 at a concrete successful daytime run. -/
theorem C10_witness :
    (mainRun baseInput).1.stringCsvWrite
      = some (stringCsvRows (calculate_power ⟨500⟩ ⟨[], [], [], []⟩).2.1
          (calculate_power ⟨500⟩ ⟨[], [], [], []⟩).2.2.1
          (calculate_power ⟨500⟩ ⟨[], [], [], []⟩).2.2.2) :=
  C10_string_csv_common_prefix.2 baseInput ⟨500⟩ ⟨[], [], [], []⟩ (by decide) rfl rfl
